import Mathlib

/-
  Verification development for the Axyle expo SDK telemetry pipeline.

  Shallow embedding of the core event durability and delivery pipeline:
  the storage layer (storage.ts), the event queue (queue.ts), the transport
  (transport.ts), the session state machine (session.ts), utility functions
  (utils.ts), and the client facade (client.ts).

  Stateful TypeScript code is embedded as explicit state passing over a
  Store record (the AsyncStorage key/value contents) together with in-memory
  component state; asynchronous external interactions (network responses,
  fresh ids, clock reads, serialized byte sizes) are nondeterministic inputs
  passed as parameters; observable side effects (hand-off of events to the
  transport, removals from durable storage, deferred fire-and-forget tasks)
  are collected in an explicit effect trace.
-/

set_option autoImplicit false
set_option maxRecDepth 100000

namespace Axyle

/-! ## Data model (types.ts) -/

/-- Primitive property values: EventProperties allows string, number,
    boolean, null (numbers modelled as Int; the claims never involve
    fractional values). -/
inductive PropValue where
  | pStr (s : String)
  | pNum (n : Int)
  | pBool (b : Bool)
  | pNull
  deriving DecidableEq

abbrev EventProperties := List (String × PropValue)

/-- AnalyticsEvent from types.ts. The device/app context snapshot is an
    external collaborator (spec section 1) and is carried as an opaque
    string token. -/
structure AnalyticsEvent where
  id : String
  name : String
  properties : EventProperties
  timestamp : Int
  userId : String
  anonymousId : String
  sessionId : String
  context : String
  schemaVersion : String
  deriving DecidableEq

/-- SessionData from types.ts. -/
structure SessionData where
  sessionId : String
  startTime : Int
  lastActivityTime : Int
  deriving DecidableEq

/-- The contents of the durable store (AsyncStorage), one field per
    storage key of constants.ts. -/
structure Store where
  eventsQueue : List AnalyticsEvent
  anonymousId : Option String
  userId : Option String
  sessionData : Option SessionData
  optOut : Bool
  deriving DecidableEq

/-- Observable side effects of queue/client operations.
    transportSend records the hand-off of a list of events to
    Transport.sendBatch; queueRemove records a removeEventsFromQueue call;
    storageRead records a getQueuedEvents read inside flush; deferredTask
    records a fire-and-forget trackAutoEvent submitted from a session
    callback (spec section 5 models those as submitted tasks). -/
inductive Effect where
  | storageRead
  | transportSend (events : List AnalyticsEvent)
  | queueRemove (ids : List String)
  | deferredTask (name : String)
  deriving DecidableEq

/-- Session lifecycle callbacks invoked by the SessionManager. -/
inductive SessionCallback where
  | started (sessionId : String)
  | ended (sessionId : String) (duration : Int)
  deriving DecidableEq

/-! ## Constants (constants.ts) -/

def SCHEMA_VERSION : String := "1.0.0"

def MAX_EVENT_SIZE : Nat := 32 * 1024

def MAX_BATCH_SIZE : Nat := 500 * 1024

def MAX_EVENTS_PER_BATCH : Nat := 100

structure RetryConfig where
  maxRetries : Nat
  initialDelay : Nat
  maxDelay : Nat
  backoffMultiplier : Nat
  deriving DecidableEq

def RETRY_CONFIG : RetryConfig :=
  { maxRetries := 3
    initialDelay := 1000
    maxDelay := 32000
    backoffMultiplier := 2 }

def DEFAULT_maxQueueSize : Nat := 100

def DEFAULT_flushInterval : Nat := 10000

def DEFAULT_sessionTimeout : Int := 30 * 60 * 1000

/-! ## Utilities (utils.ts) -/

/-- calculateBackoff from utils.ts:
    delay = initialDelay * multiplier ^ attempt, capped at maxDelay. -/
def calculateBackoff (attempt initialDelay maxDelay multiplier : Nat) : Nat :=
  min (initialDelay * multiplier ^ attempt) maxDelay

/-- Membership in the character class of the event-name regex
    [a-zA-Z0-9\s_-] (whitespace modelled as the ASCII whitespace
    characters). -/
def isEventNameChar (c : Char) : Bool :=
  c.isAlphanum || c = ' ' || c = '\t' || c = '\n' || c = '\r' || c = '_' || c = '-'

/-- isValidEventName from utils.ts: nonempty, at most 255 characters, and
    every character drawn from the allowed class. -/
def isValidEventName (name : String) : Bool :=
  if name.length = 0 || name.length > 255 then false
  else name.toList.all isEventNameChar

/-- sanitizeProperties from utils.ts restricted to the primitive-only
    EventProperties domain: entries with an empty or over-long key are
    skipped, primitive values pass through unchanged. -/
def sanitizeProperties (properties : EventProperties) : EventProperties :=
  properties.filter (fun kv => 0 < kv.1.length && kv.1.length ≤ 255)

/-! ## Storage layer (storage.ts) -/

/-- Storage.addEventToQueue: read the queue, push the event, save. -/
def addEventToQueue (st : Store) (e : AnalyticsEvent) : Store :=
  { st with eventsQueue := st.eventsQueue ++ [e] }

/-- Storage.removeEventsFromQueue: keep exactly the events whose id is not
    in the given list. -/
def removeEventsFromQueue (st : Store) (eventIds : List String) : Store :=
  { st with eventsQueue := st.eventsQueue.filter (fun e => !(eventIds.contains e.id)) }

/-! ## Transport (transport.ts)

    The network is a nondeterministic environment: each attempt of a batch
    send receives an HttpOutcome chosen by a response function indexed by
    the attempt number. The serialized byte size of an event
    (getObjectSize, which measures a JSON Blob) is likewise supplied as a
    size function. -/

/-- Outcome of one makeRequest call: either a transport-level failure
    (fetch threw, no response) or a response with the given HTTP status. -/
inductive HttpOutcome where
  | networkError
  | response (status : Nat)
  deriving DecidableEq

/-- Response.ok of the fetch API: status in the range 200-299. -/
def statusOk (status : Nat) : Bool :=
  200 ≤ status && status ≤ 299

/-- The client-error class checked by sendBatchWithRetry:
    400 <= status < 500. -/
def isClientError (status : Nat) : Bool :=
  400 ≤ status && status < 500

/-- An outcome on which sendBatchWithRetry keeps retrying: a network error,
    or a response that is neither ok nor a client error. -/
def isRetryableOutcome : HttpOutcome → Bool
  | HttpOutcome.networkError => true
  | HttpOutcome.response s => !(statusOk s) && !(isClientError s)

/-- The while-loop of Transport.sendBatchWithRetry. fuel is the number of
    remaining attempts (maxRetries - attempt); the result is the success
    flag together with the number of network requests issued. -/
def retryLoop (responses : Nat → HttpOutcome) (attempt : Nat) : Nat → Bool × Nat
  | 0 => (false, 0)
  | fuel + 1 =>
    match responses attempt with
    | HttpOutcome.response s =>
      if statusOk s then (true, 1)
      else if isClientError s then (false, 1)
      else
        let r := retryLoop responses (attempt + 1) fuel
        (r.1, r.2 + 1)
    | HttpOutcome.networkError =>
      let r := retryLoop responses (attempt + 1) fuel
      (r.1, r.2 + 1)

/-- Transport.sendBatchWithRetry: up to RETRY_CONFIG.maxRetries attempts,
    starting at attempt 0. -/
def sendBatchWithRetry (responses : Nat → HttpOutcome) : Bool × Nat :=
  retryLoop responses 0 RETRY_CONFIG.maxRetries

/-- The loop of Transport.createBatches, carrying the current batch and its
    accumulated byte size. -/
def createBatchesLoop (sizeOf : AnalyticsEvent → Nat) :
    List AnalyticsEvent → List AnalyticsEvent → Nat → List (List AnalyticsEvent)
  | [], currentBatch, _ =>
    if 0 < currentBatch.length then [currentBatch] else []
  | e :: rest, currentBatch, currentBatchSize =>
    let eventSize := sizeOf e
    if MAX_EVENTS_PER_BATCH ≤ currentBatch.length
        ∨ MAX_BATCH_SIZE < currentBatchSize + eventSize then
      (if 0 < currentBatch.length then [currentBatch] else [])
        ++ createBatchesLoop sizeOf rest [e] eventSize
    else
      createBatchesLoop sizeOf rest (currentBatch ++ [e]) (currentBatchSize + eventSize)

/-- Transport.createBatches: greedy partition of the event list under the
    per-batch count and byte-size ceilings. -/
def createBatches (sizeOf : AnalyticsEvent → Nat) (events : List AnalyticsEvent) :
    List (List AnalyticsEvent) :=
  createBatchesLoop sizeOf events [] 0

/-- The per-batch loop of Transport.sendBatch: batch i is sent with retry
    using the response function for index i; ids of acknowledged batches
    are accumulated in order, and a failed batch never stops the loop. -/
def sendBatchesLoop (responses : Nat → Nat → HttpOutcome) (i : Nat) :
    List (List AnalyticsEvent) → List String
  | [] => []
  | batch :: rest =>
    (if (sendBatchWithRetry (responses i)).1 then batch.map (fun e => e.id) else [])
      ++ sendBatchesLoop responses (i + 1) rest

/-- Transport.sendBatch: empty input short-circuits; otherwise split into
    batches and send each, returning the ids of all acknowledged events. -/
def sendBatch (sizeOf : AnalyticsEvent → Nat) (responses : Nat → Nat → HttpOutcome)
    (events : List AnalyticsEvent) : List String :=
  if events.length = 0 then []
  else sendBatchesLoop responses 0 (createBatches sizeOf events)

/-! ## Event queue (queue.ts)

    EventQueue state is the isFlushing guard (the persisted queue lives in
    the Store). The transport outcome of a flush is abstracted by an
    acknowledgment function ack from the list of events handed to
    Transport.sendBatch to the list of ids the transport reports as
    acknowledged. -/

/-- EventQueue.flush. Returns the new (isFlushing, store) pair together
    with the trace of effects. A flush already in progress makes the call
    return immediately with no effect; otherwise the persisted queue is
    read, sent via the transport, and exactly the acknowledged ids are
    removed (removeEventsFromQueue is only invoked when at least one id was
    acknowledged); a trailing read checks for remaining events. -/
def flush (isFlushing : Bool) (st : Store)
    (ack : List AnalyticsEvent → List String) : (Bool × Store) × List Effect :=
  if isFlushing then ((isFlushing, st), [])
  else
    let events := st.eventsQueue
    if events.length = 0 then ((false, st), [Effect.storageRead])
    else
      let sentEventIds := ack events
      let st1 := if sentEventIds.length > 0 then removeEventsFromQueue st sentEventIds else st
      ((false, st1),
        [Effect.storageRead, Effect.transportSend events]
          ++ (if sentEventIds.length > 0 then [Effect.queueRemove sentEventIds] else [])
          ++ [Effect.storageRead])

/-- EventQueue.enqueue: persist the event, read the queue length back, and
    trigger a flush when the length reaches maxQueueSize. The third
    component reports whether the flush trigger fired. -/
def enqueue (isFlushing : Bool) (st : Store) (maxQueueSize : Nat)
    (ack : List AnalyticsEvent → List String) (e : AnalyticsEvent) :
    (Bool × Store) × List Effect × Bool :=
  let st1 := addEventToQueue st e
  let queuedEvents := st1.eventsQueue
  if queuedEvents.length ≥ maxQueueSize then
    let r := flush isFlushing st1 ack
    (r.1, r.2, true)
  else
    ((isFlushing, st1), [], false)

/-! ## Session state machine (session.ts)

    SessionManager in-memory state is currentSession : Option SessionData
    (sessionTimeout is passed explicitly). Clock reads and fresh session
    ids are nondeterministic inputs. Callbacks are returned as a list, in
    invocation order. -/

/-- SessionManager.startNewSession: build the session record with
    startTime = lastActivityTime = now, persist it, then fire the
    session-start callback. -/
def startNewSession (st : Store) (now : Int) (freshSid : String) :
    Option SessionData × Store × List SessionCallback :=
  let session : SessionData := { sessionId := freshSid, startTime := now, lastActivityTime := now }
  (some session, { st with sessionData := some session }, [SessionCallback.started freshSid])

/-- SessionManager.endSession: fire the session-end callback with
    duration = lastActivityTime - startTime. -/
def endSession (session : SessionData) : List SessionCallback :=
  [SessionCallback.ended session.sessionId (session.lastActivityTime - session.startTime)]

/-- SessionManager.updateActivity: nothing without a current session;
    renewal (end old, start new) when now - lastActivityTime reaches the
    timeout; otherwise only lastActivityTime is updated and persisted. -/
def updateActivity (sessionTimeout : Int) (current : Option SessionData)
    (st : Store) (now : Int) (freshSid : String) :
    Option SessionData × Store × List SessionCallback :=
  match current with
  | none => (none, st, [])
  | some s =>
    if now - s.lastActivityTime ≥ sessionTimeout then
      let r := startNewSession st now freshSid
      (r.1, r.2.1, endSession s ++ r.2.2)
    else
      let s1 := { s with lastActivityTime := now }
      (some s1, { st with sessionData := some s1 }, [])

/-- SessionManager initialization: resume a fresh persisted session (and
    record activity), renew an expired one, or start anew when none is
    persisted. -/
def initSession (sessionTimeout : Int) (st : Store) (now : Int) (freshSid : String) :
    Option SessionData × Store × List SessionCallback :=
  match st.sessionData with
  | some saved =>
    if now - saved.lastActivityTime < sessionTimeout then
      updateActivity sessionTimeout (some saved) st now freshSid
    else
      let r := startNewSession st now freshSid
      (r.1, r.2.1, endSession saved ++ r.2.2)
  | none =>
    startNewSession st now freshSid

/-! ## Client facade (client.ts)

    In-memory AxyleClient state. The EventQueue and Transport are present
    only when init ran with an API key while not opted out; existence is
    tracked by hasQueue, with the queue mutex in queueFlushing. The
    SessionAnalytics counter is its list of recorded events (or none when
    never constructed). -/

structure Client where
  isInitialized : Bool
  isOptedOut : Bool
  userId : Option String
  anonymousId : String
  sessionTimeout : Int
  maxQueueSize : Nat
  mgrSession : Option SessionData
  sessionAnalytics : Option (List AnalyticsEvent)
  hasQueue : Bool
  queueFlushing : Bool
  deriving DecidableEq

/-- The client as built by the AxyleClient constructor: defaults loaded,
    nothing initialized, session manager present but with no session. -/
def newClient : Client :=
  { isInitialized := false
    isOptedOut := false
    userId := none
    anonymousId := ""
    sessionTimeout := DEFAULT_sessionTimeout
    maxQueueSize := DEFAULT_maxQueueSize
    mgrSession := none
    sessionAnalytics := none
    hasQueue := false
    queueFlushing := false }

/-- Nondeterministic inputs consumed by a single track/identify call: the
    clock, the fresh session id a renewal would use, the fresh event id,
    the context snapshot, the serialized-size function, and the transport
    acknowledgment function used if a flush triggers. -/
structure TrackInput where
  now : Int
  freshSid : String
  freshEid : String
  ctx : String
  sizeOf : AnalyticsEvent → Nat
  ack : List AnalyticsEvent → List String

/-- handleSessionStart / handleSessionEnd on the client: a session start
    resets (or creates) the SessionAnalytics counter and defers a
    Session Started auto-event; a session end defers a Session Ended
    auto-event. -/
def applyCallback (c : Client) : SessionCallback → Client × List Effect
  | SessionCallback.started _ =>
    ({ c with sessionAnalytics := some [] }, [Effect.deferredTask ("Session Started")])
  | SessionCallback.ended _ _ =>
    (c, [Effect.deferredTask ("Session Ended")])

def applyCallbacks (c : Client) : List SessionCallback → Client × List Effect
  | [] => (c, [])
  | cb :: rest =>
    let r1 := applyCallback c cb
    let r2 := applyCallbacks r1.1 rest
    (r2.1, r1.2 ++ r2.2)

/-- AxyleClient.createEvent: stamp the event with the resolved identity,
    the current session id (or a synthesized temporary one), the context
    snapshot and the schema version. -/
def createEvent (c : Client) (mgrSession : Option SessionData) (inp : TrackInput)
    (name : String) (properties : EventProperties) : AnalyticsEvent :=
  { id := inp.freshEid
    name := name
    properties := sanitizeProperties properties
    timestamp := inp.now
    userId := (c.userId).getD c.anonymousId
    anonymousId := c.anonymousId
    sessionId :=
      match mgrSession with
      | some s => s.sessionId
      | none => "temp_session_" ++ toString inp.now
    context := inp.ctx
    schemaVersion := SCHEMA_VERSION }

/-- AxyleClient.track: gate on initialization and opt-out, validate the
    name, update session activity (whose callbacks may reset the local
    counter and defer auto-events), build the event, drop it when
    oversized, count it locally, and enqueue it when a queue exists. -/
def track (c : Client) (st : Store) (inp : TrackInput)
    (name : String) (properties : EventProperties) : Client × Store × List Effect :=
  if !c.isInitialized then (c, st, [])
  else if c.isOptedOut then (c, st, [])
  else if !(isValidEventName name) then (c, st, [])
  else
    let act := updateActivity c.sessionTimeout c.mgrSession st inp.now inp.freshSid
    let cbApplied := applyCallbacks { c with mgrSession := act.1 } act.2.2
    let c1 := cbApplied.1
    let st1 := act.2.1
    let cbEffs := cbApplied.2
    let ev := createEvent c1 act.1 inp name properties
    if inp.sizeOf ev > MAX_EVENT_SIZE then (c1, st1, cbEffs)
    else
      let c2 := { c1 with sessionAnalytics := c1.sessionAnalytics.map (fun l => l ++ [ev]) }
      if c2.hasQueue then
        let r := enqueue c2.queueFlushing st1 c2.maxQueueSize inp.ack ev
        ({ c2 with queueFlushing := r.1.1 }, r.1.2, cbEffs ++ r.2.1)
      else
        (c2, st1, cbEffs)

/-- AxyleClient.identify: gate on initialization and opt-out, capture the
    previous user id, store the new one, and track a User Identified event
    whose properties are the traits overridden with previousUserId set to
    the previous user id (or the anonymous id when none was set). -/
def identify (c : Client) (st : Store) (inp : TrackInput)
    (userId : String) (traits : EventProperties) : Client × Store × List Effect :=
  if !c.isInitialized || c.isOptedOut then (c, st, [])
  else
    let previousUserId := c.userId
    let c1 := { c with userId := some userId }
    let st1 := { st with userId := some userId }
    track c1 st1 inp ("User Identified")
      (traits.filter (fun kv => kv.1 ≠ "previousUserId")
        ++ [("previousUserId", PropValue.pStr (previousUserId.getD c.anonymousId))])

/-- AxyleClient.optOut: set and persist the flag, clear the local session
    counter when present. -/
def optOut (c : Client) (st : Store) : Client × Store :=
  ({ c with
      isOptedOut := true
      sessionAnalytics := c.sessionAnalytics.map (fun _ => []) },
    { st with optOut := true })

/-- AxyleClient.optIn: clear and persist the flag; when no session id is
    available, recreate and initialize the session manager (callbacks
    included) and rebuild the SessionAnalytics counter. The transport and
    queue are not touched. -/
def optIn (c : Client) (st : Store) (now : Int) (freshSid : String) :
    Client × Store × List Effect :=
  let c0 := { c with isOptedOut := false }
  let st0 := { st with optOut := false }
  match c0.mgrSession with
  | some _ => (c0, st0, [])
  | none =>
    let r := initSession c0.sessionTimeout st0 now freshSid
    let cbApplied := applyCallbacks { c0 with mgrSession := r.1 } r.2.2
    let c1 := cbApplied.1
    let c2 := if r.1.isSome then { c1 with sessionAnalytics := some [] } else c1
    (c2, r.2.1, cbApplied.2)

/-- AxyleClient.init. Config is reset to the defaults with the given API
    key. When the persisted opt-out flag is set, only isOptedOut and
    isInitialized are updated and the method returns early: transport and
    queue are never constructed. Otherwise identity is loaded (creating the
    anonymous id if absent), the session manager is initialized, the
    SessionAnalytics counter is built, the queue is constructed when an API
    key is present (its initialization performing a flush of events
    persisted by a previous run), the initialized flag is set, and an
    App Opened auto-event is tracked. -/
def init (c : Client) (st : Store) (apiKey : String) (freshAnonId : String)
    (inp : TrackInput) : Client × Store × List Effect :=
  let c0 := { c with
    userId := none
    sessionTimeout := DEFAULT_sessionTimeout
    maxQueueSize := DEFAULT_maxQueueSize }
  if st.optOut then
    ({ c0 with isOptedOut := true, isInitialized := true }, st, [])
  else
    let c1 := { c0 with isOptedOut := false }
    let anonymousId := (st.anonymousId).getD freshAnonId
    let st1 := if (st.anonymousId).isSome then st else { st with anonymousId := some freshAnonId }
    let c2 := { c1 with anonymousId := anonymousId, userId := st1.userId }
    let r := initSession c2.sessionTimeout st1 inp.now inp.freshSid
    let cbApplied := applyCallbacks { c2 with mgrSession := r.1 } r.2.2
    let c3 := cbApplied.1
    let st2 := r.2.1
    let c4 := if r.1.isSome then { c3 with sessionAnalytics := some [] } else c3
    let qInit :=
      if apiKey ≠ "" then
        let c5 := { c4 with hasQueue := true, queueFlushing := false }
        let fr := flush false st2 inp.ack
        ({ c5 with queueFlushing := fr.1.1 }, fr.1.2, fr.2)
      else (c4, st2, ([] : List Effect))
    let c6 := { qInit.1 with isInitialized := true }
    let tr := track c6 qInit.2.1 inp ("App Opened") []
    (tr.1, tr.2.1, cbApplied.2 ++ qInit.2.2 ++ tr.2.2)

/-- The event a track call builds when the session is fresh (no renewal):
    the session id is the current session's, the activity update only
    advanced lastActivityTime. -/
def trackedEvent (c : Client) (s : SessionData) (inp : TrackInput)
    (name : String) (properties : EventProperties) : AnalyticsEvent :=
  createEvent c (some { s with lastActivityTime := inp.now }) inp name properties

/-- The properties of the synthetic User Identified event: the traits with
    previousUserId overridden by the previous user id (or the anonymous id
    when none was set). -/
def identifyProps (c : Client) (traits : EventProperties) : EventProperties :=
  traits.filter (fun kv => kv.1 ≠ "previousUserId")
    ++ [("previousUserId", PropValue.pStr ((c.userId).getD c.anonymousId))]

/-- The event an identify call enqueues (built after the user id has been
    updated, so it carries the new user id). -/
def identifiedEvent (c : Client) (s : SessionData) (inp : TrackInput)
    (newUserId : String) (traits : EventProperties) : AnalyticsEvent :=
  trackedEvent { c with userId := some newUserId } s inp
    ("User Identified") (identifyProps c traits)

/-! ## Concrete fixtures used by the witnesses -/

def ctx0 : String := "ctx"

def evA : AnalyticsEvent :=
  { id := "a", name := "Event A", properties := [], timestamp := 0,
    userId := "u", anonymousId := "u", sessionId := "s", context := ctx0,
    schemaVersion := SCHEMA_VERSION }

def evB : AnalyticsEvent := { evA with id := "b" }

def evC : AnalyticsEvent := { evA with id := "c" }

def store2 : Store :=
  { eventsQueue := [evA, evB], anonymousId := some "u", userId := none,
    sessionData := none, optOut := false }

/-- A transport that acknowledges exactly the id a. -/
def ackOnlyA : List AnalyticsEvent → List String := fun _ => ["a"]

/-! ## Theorems -/

/-- A flush over a nonempty queue hands exactly the persisted queue to the
    transport. -/
theorem transportSend_mem_flush (st : Store) (ack : List AnalyticsEvent → List String)
    (h : st.eventsQueue ≠ []) :
    Effect.transportSend st.eventsQueue ∈ (flush false st ack).2 := by
  have hlen : ¬st.eventsQueue.length = 0 := by
    simpa [List.length_eq_zero] using h
  unfold flush
  simp [hlen]

/-- Claim C1: a single flush removes from the persisted queue exactly the
    events whose ids are in the set the transport acknowledged; every event
    whose id was not acknowledged remains in the persisted queue and is
    part of the event list a subsequent flush hands to the transport. -/
theorem flush_removes_exactly_acknowledged (st : Store)
    (ack ack2 : List AnalyticsEvent → List String) :
    (flush false st ack).1.2 = removeEventsFromQueue st (ack st.eventsQueue)
    ∧ (∀ e, e ∈ st.eventsQueue → e.id ∈ ack st.eventsQueue →
        e ∉ ((flush false st ack).1.2).eventsQueue)
    ∧ (∀ e, e ∈ st.eventsQueue → e.id ∉ ack st.eventsQueue →
        e ∈ ((flush false st ack).1.2).eventsQueue)
    ∧ (∀ e, e ∈ st.eventsQueue → e.id ∉ ack st.eventsQueue →
        Effect.transportSend ((flush false st ack).1.2).eventsQueue
          ∈ (flush false (flush false st ack).1.2 ack2).2) := by
  obtain ⟨q, anon, uid, sess, oo⟩ := st
  have hmain : (flush false ⟨q, anon, uid, sess, oo⟩ ack).1.2
      = removeEventsFromQueue ⟨q, anon, uid, sess, oo⟩ (ack q) := by
    unfold flush
    by_cases hq : q.length = 0
    · have hnil := List.length_eq_zero.mp hq
      subst hnil
      simp [removeEventsFromQueue]
    · by_cases hl : (ack q).length > 0
      · simp [hq, hl]
      · have hids : ack q = [] :=
          List.length_eq_zero.mp (Nat.eq_zero_of_not_pos hl)
        simp [hq, hl, removeEventsFromQueue, hids]
  refine ⟨hmain, ?_, ?_, ?_⟩
  · intro e he hid
    rw [hmain]
    simp only [removeEventsFromQueue, List.mem_filter]
    intro hc
    have := hc.2
    simp [hid] at this
  · intro e he hid
    rw [hmain]
    simp only [removeEventsFromQueue, List.mem_filter]
    exact ⟨he, by simp [hid]⟩
  · intro e he hid
    have hmem : e ∈ ((flush false ⟨q, anon, uid, sess, oo⟩ ack).1.2).eventsQueue := by
      rw [hmain]
      simp only [removeEventsFromQueue, List.mem_filter]
      exact ⟨he, by simp [hid]⟩
    exact transportSend_mem_flush _ ack2 (List.ne_nil_of_mem hmem)

/-- Witness for C1 at a concrete queue of two events where only evA is
    acknowledged: evB survives and is sent by the next flush. -/
theorem flush_removes_exactly_acknowledged_witness :
    (evB ∈ store2.eventsQueue ∧ evB.id ∉ ackOnlyA store2.eventsQueue)
    ∧ evB ∈ ((flush false store2 ackOnlyA).1.2).eventsQueue
    ∧ Effect.transportSend ((flush false store2 ackOnlyA).1.2).eventsQueue
        ∈ (flush false (flush false store2 ackOnlyA).1.2 ackOnlyA).2 :=
  ⟨⟨by decide, by decide⟩,
    (flush_removes_exactly_acknowledged store2 ackOnlyA ackOnlyA).2.2.1 evB
      (by decide) (by decide),
    (flush_removes_exactly_acknowledged store2 ackOnlyA ackOnlyA).2.2.2 evB
      (by decide) (by decide)⟩

/-- Claim C2: enqueue appends the event to the durable queue before the
    flush decision and never drops it; the flush trigger fires exactly when
    the read-back queue length reaches maxQueueSize; a triggering enqueue
    runs a flush over the queue that already contains the event rather than
    rejecting it. -/
theorem enqueue_appends_and_triggers (fs : Bool) (st : Store) (maxQ : Nat)
    (ack : List AnalyticsEvent → List String) (e : AnalyticsEvent) :
    (addEventToQueue st e).eventsQueue = st.eventsQueue ++ [e]
    ∧ e ∈ (addEventToQueue st e).eventsQueue
    ∧ ((enqueue fs st maxQ ack e).2.2 = true ↔ maxQ ≤ (st.eventsQueue ++ [e]).length)
    ∧ ((enqueue fs st maxQ ack e).2.2 = false →
        (enqueue fs st maxQ ack e).1.2.eventsQueue = st.eventsQueue ++ [e])
    ∧ ((enqueue fs st maxQ ack e).2.2 = true →
        (enqueue fs st maxQ ack e).1 = (flush fs (addEventToQueue st e) ack).1) := by
  refine ⟨rfl, by simp [addEventToQueue], ?_, ?_, ?_⟩
  · by_cases h : maxQ ≤ st.eventsQueue.length + 1
    · simp [enqueue, addEventToQueue, h]
    · simp [enqueue, addEventToQueue, h]
  · intro hf
    by_cases h : maxQ ≤ st.eventsQueue.length + 1
    · simp [enqueue, addEventToQueue, h] at hf
    · simp [enqueue, addEventToQueue, h]
  · intro hf
    by_cases h : maxQ ≤ st.eventsQueue.length + 1
    · simp [enqueue, addEventToQueue, h]
    · simp [enqueue, addEventToQueue, h] at hf

/-- Witness for C2: a non-triggering enqueue (queue of 2, max 4) keeps the
    event at the tail of the durable queue; a triggering enqueue (max 3)
    flushes the queue that already contains the event. -/
theorem enqueue_appends_and_triggers_witness :
    ((enqueue false store2 4 ackOnlyA evC).2.2 = false
      ∧ (enqueue false store2 4 ackOnlyA evC).1.2.eventsQueue = store2.eventsQueue ++ [evC])
    ∧ ((enqueue false store2 3 ackOnlyA evC).2.2 = true
      ∧ (enqueue false store2 3 ackOnlyA evC).1
          = (flush false (addEventToQueue store2 evC) ackOnlyA).1) :=
  ⟨⟨by decide,
    (enqueue_appends_and_triggers false store2 4 ackOnlyA evC).2.2.2.1 (by decide)⟩,
   ⟨by decide,
    (enqueue_appends_and_triggers false store2 3 ackOnlyA evC).2.2.2.2 (by decide)⟩⟩

/-- Claim C3: a flush call made while a flush is in progress returns
    immediately: no storage read, no transport send, no queue removal, and
    the state (persisted queue included) is unchanged. -/
theorem flush_in_progress_is_noop (st : Store) (ack : List AnalyticsEvent → List String) :
    flush true st ack = ((true, st), []) := rfl

/-- The retry loop on a stretch of attempts that are all retryable (network
    error, or a status that is neither 2xx nor 4xx) exhausts its budget:
    it issues exactly fuel requests and reports failure. -/
theorem retryLoop_all_retryable (responses : Nat → HttpOutcome) :
    ∀ (fuel attempt : Nat),
    (∀ i, attempt ≤ i → i < attempt + fuel → isRetryableOutcome (responses i) = true) →
    retryLoop responses attempt fuel = (false, fuel) := by
  intro fuel
  induction fuel with
  | zero => intro attempt _; rfl
  | succ n ih =>
    intro attempt h
    have h0 : isRetryableOutcome (responses attempt) = true :=
      h attempt (Nat.le_refl _) (by omega)
    have hrec := ih (attempt + 1) (fun i h1 h2 => h i (by omega) (by omega))
    cases hr : responses attempt with
    | networkError =>
      simp [retryLoop, hr, hrec]
    | response s =>
      rw [hr] at h0
      have hs : statusOk s = false ∧ isClientError s = false := by
        simp only [isRetryableOutcome, Bool.and_eq_true, Bool.not_eq_true'] at h0
        exact h0
      simp [retryLoop, hr, hs.1, hs.2, hrec]

/-- Claim C4: a batch whose first response has a 4xx status gets exactly
    one network request, no retry, and reports failure (contributing zero
    ids); a batch whose attempts all fail retryably (transport failure or
    non-2xx non-4xx status) is retried up to maxRetries = 3 attempts and
    then reported unacknowledged; in sendBatch an unacknowledged batch
    contributes no ids and the loop continues with the next batch, while an
    acknowledged batch contributes exactly its ids. -/
theorem client_error_short_circuit (responses : Nat → HttpOutcome) (s : Nat) :
    (responses 0 = HttpOutcome.response s → isClientError s = true →
      sendBatchWithRetry responses = (false, 1))
    ∧ ((∀ i, i < RETRY_CONFIG.maxRetries → isRetryableOutcome (responses i) = true) →
      sendBatchWithRetry responses = (false, RETRY_CONFIG.maxRetries))
    ∧ (∀ (resp2 : Nat → Nat → HttpOutcome) (i : Nat) (batch : List AnalyticsEvent)
        (rest : List (List AnalyticsEvent)),
        (sendBatchWithRetry (resp2 i)).1 = false →
        sendBatchesLoop resp2 i (batch :: rest) = sendBatchesLoop resp2 (i + 1) rest)
    ∧ (∀ (resp2 : Nat → Nat → HttpOutcome) (i : Nat) (batch : List AnalyticsEvent)
        (rest : List (List AnalyticsEvent)),
        (sendBatchWithRetry (resp2 i)).1 = true →
        sendBatchesLoop resp2 i (batch :: rest)
          = batch.map (fun e => e.id) ++ sendBatchesLoop resp2 (i + 1) rest) := by
  refine ⟨?_, ?_, ?_, ?_⟩
  · intro h hce
    have hok : statusOk s = false := by
      simp only [isClientError, Bool.and_eq_true, decide_eq_true_eq] at hce
      have h299 : ¬s ≤ 299 := by omega
      simp [statusOk, h299]
    show retryLoop responses 0 RETRY_CONFIG.maxRetries = (false, 1)
    show retryLoop responses 0 3 = (false, 1)
    simp [retryLoop, h, hok, hce]
  · intro h
    exact retryLoop_all_retryable responses RETRY_CONFIG.maxRetries 0
      (fun i h1 h2 => h i (by omega))
  · intro resp2 i batch rest hfail
    simp [sendBatchesLoop, hfail]
  · intro resp2 i batch rest hok
    simp [sendBatchesLoop, hok]

/-- Witness for C4: a transport answering 400 on the first attempt issues
    one request and fails; a transport that always times out issues three
    requests and fails; in a two-batch send where batch 0 gets 400 and
    batch 1 gets 200, only batch 1 ids are acknowledged. -/
theorem client_error_short_circuit_witness :
    sendBatchWithRetry (fun _ => HttpOutcome.response 400) = (false, 1)
    ∧ sendBatchWithRetry (fun _ => HttpOutcome.networkError) = (false, 3)
    ∧ sendBatchesLoop
        (fun i _ => if i = 0 then HttpOutcome.response 400 else HttpOutcome.response 200)
        0 [[evA], [evB]] = ["b"] :=
  ⟨(client_error_short_circuit (fun _ => HttpOutcome.response 400) 400).1 rfl (by decide),
   (client_error_short_circuit (fun _ => HttpOutcome.networkError) 0).2.1
     (fun i _ => by decide),
   by
    rw [(client_error_short_circuit
          (fun _ => HttpOutcome.response 400) 400).2.2.1
        (fun i _ => if i = 0 then HttpOutcome.response 400 else HttpOutcome.response 200)
        0 [evA] [[evB]] (by decide)]
    decide⟩

/-- Flattening the batches produced by the createBatches loop recovers the
    pending current batch followed by the remaining input, whatever the
    accumulator state. -/
theorem createBatchesLoop_flatten (sizeOf : AnalyticsEvent → Nat) :
    ∀ (l cur : List AnalyticsEvent) (sz : Nat),
    (createBatchesLoop sizeOf l cur sz).flatten = cur ++ l := by
  intro l
  induction l with
  | nil =>
    intro cur sz
    cases cur with
    | nil => simp [createBatchesLoop]
    | cons a t => simp [createBatchesLoop]
  | cons e rest ih =>
    intro cur sz
    by_cases h : MAX_EVENTS_PER_BATCH ≤ cur.length ∨ MAX_BATCH_SIZE < sz + sizeOf e
    · simp only [createBatchesLoop]
      rw [if_pos h]
      cases cur with
      | nil => simp [ih]
      | cons a t => simp [ih]
    · simp only [createBatchesLoop]
      rw [if_neg h]
      simp [ih]

/-- Once an oversized event has become the pending current batch, it is
    emitted as a batch on its own. -/
theorem createBatchesLoop_single_oversized (sizeOf : AnalyticsEvent → Nat)
    (e : AnalyticsEvent) (he : MAX_BATCH_SIZE < sizeOf e) :
    ∀ (rest : List AnalyticsEvent),
    [e] ∈ createBatchesLoop sizeOf rest [e] (sizeOf e) := by
  intro rest
  cases rest with
  | nil => simp [createBatchesLoop]
  | cons e2 r =>
    have hc : MAX_EVENTS_PER_BATCH ≤ ([e] : List AnalyticsEvent).length
        ∨ MAX_BATCH_SIZE < sizeOf e + sizeOf e2 := Or.inr (by omega)
    simp only [createBatchesLoop]
    rw [if_pos hc]
    simp

/-- An oversized event anywhere in the remaining input ends up as a
    singleton batch. -/
theorem createBatchesLoop_oversized_mem (sizeOf : AnalyticsEvent → Nat)
    (e : AnalyticsEvent) (he : MAX_BATCH_SIZE < sizeOf e) :
    ∀ (l cur : List AnalyticsEvent) (sz : Nat),
    e ∈ l → [e] ∈ createBatchesLoop sizeOf l cur sz := by
  intro l
  induction l with
  | nil => intro cur sz h; cases h
  | cons a rest ih =>
    intro cur sz h
    rcases List.mem_cons.mp h with rfl | hmem
    · have hc : MAX_EVENTS_PER_BATCH ≤ cur.length
          ∨ MAX_BATCH_SIZE < sz + sizeOf e := Or.inr (by omega)
      simp only [createBatchesLoop]
      rw [if_pos hc]
      exact List.mem_append_right _ (createBatchesLoop_single_oversized sizeOf e he rest)
    · by_cases hc : MAX_EVENTS_PER_BATCH ≤ cur.length
          ∨ MAX_BATCH_SIZE < sz + sizeOf a
      · simp only [createBatchesLoop]
        rw [if_pos hc]
        exact List.mem_append_right _ (ih [a] (sizeOf a) hmem)
      · simp only [createBatchesLoop]
        rw [if_neg hc]
        exact ih (cur ++ [a]) (sz + sizeOf a) hmem

/-- 250 small events used by the batching-ceiling instance of C6. -/
def mkEvt (i : Nat) : AnalyticsEvent :=
  { id := toString i, name := "E", properties := [], timestamp := 0,
    userId := "u", anonymousId := "u", sessionId := "s", context := ctx0,
    schemaVersion := SCHEMA_VERSION }

def events250 : List AnalyticsEvent := (List.range 250).map mkEvt

/-- Claim C6: createBatches partitions its input in order without dropping
    or duplicating an event (flattening the batches recovers the input);
    an event larger than the byte ceiling becomes a singleton batch rather
    than being dropped; and 250 events well under the byte ceiling produce
    exactly the batches of sizes 100, 100, 50. -/
theorem createBatches_partition (sizeOf : AnalyticsEvent → Nat)
    (events : List AnalyticsEvent) :
    (createBatches sizeOf events).flatten = events
    ∧ (∀ e, e ∈ events → MAX_BATCH_SIZE < sizeOf e →
        [e] ∈ createBatches sizeOf events)
    ∧ (createBatches (fun _ => 200) events250).map List.length = [100, 100, 50] := by
  refine ⟨createBatchesLoop_flatten sizeOf events [] 0, ?_, ?_⟩
  · intro e he hbig
    exact createBatchesLoop_oversized_mem sizeOf e hbig events [] 0 he
  · decide

/-- Witness for C6: an event of 600KB (ceiling 500KB) in a two-event input
    is emitted as its own singleton batch. -/
theorem createBatches_partition_witness :
    (evA ∈ [evB, evA]
      ∧ MAX_BATCH_SIZE < (fun e => if e.id = "a" then 600 * 1024 else 10) evA)
    ∧ [evA] ∈ createBatches (fun e => if e.id = "a" then 600 * 1024 else 10) [evB, evA] :=
  ⟨⟨by decide, by decide⟩,
    (createBatches_partition (fun e => if e.id = "a" then 600 * 1024 else 10)
        [evB, evA]).2.1 evA (by decide) (by decide)⟩

/-- Claim C5: the computed backoff delay is min of initialDelay times
    multiplier to the attempt and maxDelay; with the configured constants
    the delays for attempts 0, 1, 2 are 1000, 2000, 4000 and the delay
    never exceeds maxDelay. -/
theorem backoff_formula_and_bound :
    (∀ n : Nat,
      calculateBackoff n RETRY_CONFIG.initialDelay RETRY_CONFIG.maxDelay
        RETRY_CONFIG.backoffMultiplier = min (1000 * 2 ^ n) 32000)
    ∧ calculateBackoff 0 1000 32000 2 = 1000
    ∧ calculateBackoff 1 1000 32000 2 = 2000
    ∧ calculateBackoff 2 1000 32000 2 = 4000
    ∧ (∀ n : Nat, calculateBackoff n 1000 32000 2 ≤ 32000) :=
  ⟨fun _ => rfl, by decide, by decide, by decide, fun _ => Nat.min_le_right _ _⟩

/-- Claim C7: on an activity update, a session stale by at least the
    timeout is ended (end callback with duration lastActivityTime minus
    startTime) and a fresh session (start callback, persisted with
    startTime = lastActivityTime = now) replaces it; a session fresher than
    the timeout only gets its lastActivityTime updated and persisted, with
    the sessionId unchanged. -/
theorem session_activity_renewal (sessionTimeout : Int) (s : SessionData)
    (st : Store) (now : Int) (freshSid : String) :
    (sessionTimeout ≤ now - s.lastActivityTime →
      updateActivity sessionTimeout (some s) st now freshSid =
        (some { sessionId := freshSid, startTime := now, lastActivityTime := now },
          { st with sessionData := some ({ sessionId := freshSid, startTime := now, lastActivityTime := now } : SessionData) },
          [SessionCallback.ended s.sessionId (s.lastActivityTime - s.startTime),
            SessionCallback.started freshSid]))
    ∧ (now - s.lastActivityTime < sessionTimeout →
      updateActivity sessionTimeout (some s) st now freshSid =
        (some { s with lastActivityTime := now },
          { st with sessionData := some ({ s with lastActivityTime := now }) },
          [])) := by
  constructor
  · intro h
    simp [updateActivity, startNewSession, endSession, h]
  · intro h
    have h2 : ¬sessionTimeout ≤ now - s.lastActivityTime := by omega
    simp [updateActivity, h2]

/-- Witness for C7 with the default 30 minute timeout: a session stale by
    31 minutes renews (end then start callbacks fire, fresh id), while a
    session stale by 29 minutes keeps its id and only updates
    lastActivityTime. -/
theorem session_activity_renewal_witness :
    updateActivity DEFAULT_sessionTimeout
        (some { sessionId := "s1", startTime := 0, lastActivityTime := 5 })
        store2 (5 + 31 * 60 * 1000) "s2" =
      (some { sessionId := "s2", startTime := 5 + 31 * 60 * 1000,
              lastActivityTime := 5 + 31 * 60 * 1000 },
        { store2 with sessionData := some ({ sessionId := "s2", startTime := 5 + 31 * 60 * 1000, lastActivityTime := 5 + 31 * 60 * 1000 } : SessionData) },
        [SessionCallback.ended "s1" 5, SessionCallback.started "s2"])
    ∧ updateActivity DEFAULT_sessionTimeout
        (some { sessionId := "s1", startTime := 0, lastActivityTime := 5 })
        store2 (5 + 29 * 60 * 1000) "s2" =
      (some { sessionId := "s1", startTime := 0, lastActivityTime := 5 + 29 * 60 * 1000 },
        { store2 with sessionData := some ({ sessionId := "s1", startTime := 0, lastActivityTime := 5 + 29 * 60 * 1000 } : SessionData) },
        []) :=
  ⟨(session_activity_renewal DEFAULT_sessionTimeout
      { sessionId := "s1", startTime := 0, lastActivityTime := 5 }
      store2 (5 + 31 * 60 * 1000) "s2").1 (by decide),
   (session_activity_renewal DEFAULT_sessionTimeout
      { sessionId := "s1", startTime := 0, lastActivityTime := 5 }
      store2 (5 + 29 * 60 * 1000) "s2").2 (by decide)⟩

/-- A track call on an initialized, opted-in client with a queue, a fresh
    session, a valid name, an event within the size ceiling, and a queue
    below the flush trigger: the session activity is updated, the event is
    counted locally and appended to the durable queue, and no other effect
    occurs. -/
theorem track_normal_queue (c : Client) (st : Store) (inp : TrackInput)
    (name : String) (props : EventProperties) (s : SessionData)
    (hInit : c.isInitialized = true) (hOpt : c.isOptedOut = false)
    (hName : isValidEventName name = true)
    (hSess : c.mgrSession = some s)
    (hFresh : inp.now - s.lastActivityTime < c.sessionTimeout)
    (hSize : inp.sizeOf (trackedEvent c s inp name props) ≤ MAX_EVENT_SIZE)
    (hQ : c.hasQueue = true)
    (hNoTrig : st.eventsQueue.length + 1 < c.maxQueueSize) :
    track c st inp name props =
      ({ c with
          mgrSession := some { s with lastActivityTime := inp.now },
          sessionAnalytics :=
            c.sessionAnalytics.map (fun l => l ++ [trackedEvent c s inp name props]) },
        { st with
            sessionData := some ({ s with lastActivityTime := inp.now }),
            eventsQueue := st.eventsQueue ++ [trackedEvent c s inp name props] },
        []) := by
  have hRenew : ¬c.sessionTimeout ≤ inp.now - s.lastActivityTime := by omega
  have hBig : ¬inp.sizeOf (trackedEvent c s inp name props) > MAX_EVENT_SIZE := by omega
  have hTrig : ¬st.eventsQueue.length + 1 ≥ c.maxQueueSize := by omega
  simp only [track, hInit, hOpt, hName, Bool.not_true, Bool.false_eq_true, if_false,
    if_true, updateActivity, hSess, hRenew, applyCallbacks]
  simp only [trackedEvent, createEvent] at hBig
  simp [hRenew, hBig, hQ, enqueue, addEventToQueue, hTrig, trackedEvent, createEvent]

/-- A track call in the same circumstances but with no queue constructed:
    the event is counted locally, the durable queue is untouched, and no
    effect occurs. -/
theorem track_normal_noqueue (c : Client) (st : Store) (inp : TrackInput)
    (name : String) (props : EventProperties) (s : SessionData)
    (hInit : c.isInitialized = true) (hOpt : c.isOptedOut = false)
    (hName : isValidEventName name = true)
    (hSess : c.mgrSession = some s)
    (hFresh : inp.now - s.lastActivityTime < c.sessionTimeout)
    (hSize : inp.sizeOf (trackedEvent c s inp name props) ≤ MAX_EVENT_SIZE)
    (hQ : c.hasQueue = false) :
    track c st inp name props =
      ({ c with
          mgrSession := some { s with lastActivityTime := inp.now },
          sessionAnalytics :=
            c.sessionAnalytics.map (fun l => l ++ [trackedEvent c s inp name props]) },
        { st with sessionData := some ({ s with lastActivityTime := inp.now }) },
        []) := by
  have hRenew : ¬c.sessionTimeout ≤ inp.now - s.lastActivityTime := by omega
  have hBig : ¬inp.sizeOf (trackedEvent c s inp name props) > MAX_EVENT_SIZE := by omega
  simp only [track, hInit, hOpt, hName, Bool.not_true, Bool.false_eq_true, if_false,
    if_true, updateActivity, hSess, hRenew, applyCallbacks]
  simp only [trackedEvent, createEvent] at hBig
  simp [hRenew, hBig, hQ, trackedEvent, createEvent]

/-- Looking up a key in an association list that ends with that key finds
    the final entry when no earlier entry uses the key. -/
theorem lookup_append_last (k : String) (v : PropValue) :
    ∀ (l : EventProperties), (∀ kv, kv ∈ l → kv.1 ≠ k) →
    List.lookup k (l ++ [(k, v)]) = some v := by
  intro l
  induction l with
  | nil => simp [List.lookup]
  | cons a rest ih =>
    intro h
    have ha : ¬k = a.1 := fun he => (h a (by simp)) he.symm
    obtain ⟨a1, a2⟩ := a
    simp only [List.cons_append, List.lookup]
    rw [show (k == a1) = false by simp [ha]]
    exact ih (fun kv hm => h kv (by simp [hm]))

/-- The sanitized properties of the User Identified event resolve
    previousUserId to the prior user id (or the anonymous id). -/
theorem lookup_previousUserId (c : Client) (traits : EventProperties) :
    List.lookup ("previousUserId") (sanitizeProperties (identifyProps c traits))
      = some (PropValue.pStr ((c.userId).getD c.anonymousId)) := by
  have hsplit : sanitizeProperties (identifyProps c traits)
      = sanitizeProperties (traits.filter (fun kv => kv.1 ≠ "previousUserId"))
        ++ [("previousUserId", PropValue.pStr ((c.userId).getD c.anonymousId))] := by
    unfold identifyProps sanitizeProperties
    rw [List.filter_append]
    rfl
  rw [hsplit]
  apply lookup_append_last
  intro kv hm
  have hm2 : kv ∈ traits.filter (fun kv => kv.1 ≠ "previousUserId") :=
    (List.mem_filter.mp hm).1
  have := (List.mem_filter.mp hm2).2
  simpa using this

/-- Claim C9: identify leaves every already-queued event untouched (the old
    queue is a verbatim prefix of the new one), rewrites the stored user
    id, and appends exactly one new User Identified event whose
    previousUserId property carries the prior user id, or the anonymous id
    when none was set. -/
theorem identify_frame_and_append (c : Client) (st : Store) (inp : TrackInput)
    (newUserId : String) (traits : EventProperties) (s : SessionData)
    (hInit : c.isInitialized = true) (hOpt : c.isOptedOut = false)
    (hSess : c.mgrSession = some s)
    (hFresh : inp.now - s.lastActivityTime < c.sessionTimeout)
    (hSize : inp.sizeOf (identifiedEvent c s inp newUserId traits) ≤ MAX_EVENT_SIZE)
    (hQ : c.hasQueue = true)
    (hNoTrig : st.eventsQueue.length + 1 < c.maxQueueSize) :
    ((identify c st inp newUserId traits).2.1).eventsQueue
        = st.eventsQueue ++ [identifiedEvent c s inp newUserId traits]
    ∧ (∀ e, e ∈ st.eventsQueue → e ∈ ((identify c st inp newUserId traits).2.1).eventsQueue)
    ∧ (identifiedEvent c s inp newUserId traits).name = "User Identified"
    ∧ List.lookup ("previousUserId") (identifiedEvent c s inp newUserId traits).properties
        = some (PropValue.pStr ((c.userId).getD c.anonymousId))
    ∧ ((identify c st inp newUserId traits).2.1).userId = some newUserId
    ∧ ((identify c st inp newUserId traits).1).userId = some newUserId := by
  have htrack := track_normal_queue { c with userId := some newUserId }
      { st with userId := some newUserId } inp ("User Identified")
      (identifyProps c traits) s hInit hOpt (by decide) hSess hFresh hSize hQ hNoTrig
  have hid : identify c st inp newUserId traits
      = track { c with userId := some newUserId } { st with userId := some newUserId }
          inp ("User Identified") (identifyProps c traits) := by
    simp [identify, hInit, hOpt, identifyProps]
  rw [hid, htrack]
  refine ⟨rfl, ?_, rfl, lookup_previousUserId c traits, rfl, rfl⟩
  intro e he
  simp [he]

/-- A fully initialized opted-in client with a queue, used by witnesses. -/
def client0 : Client :=
  { isInitialized := true
    isOptedOut := false
    userId := some "olduser"
    anonymousId := "anon"
    sessionTimeout := DEFAULT_sessionTimeout
    maxQueueSize := DEFAULT_maxQueueSize
    mgrSession := some { sessionId := "s1", startTime := 0, lastActivityTime := 0 }
    sessionAnalytics := some []
    hasQueue := true
    queueFlushing := false }

/-- Concrete nondeterministic inputs for witness track calls. -/
def inp0 : TrackInput :=
  { now := 1000
    freshSid := "s2"
    freshEid := "e1"
    ctx := ctx0
    sizeOf := fun _ => 100
    ack := fun _ => [] }

/-- Witness for C9: identifying a concrete client appends exactly the
    User Identified event, carries the previous user id, and rewrites the
    stored user id. -/
theorem identify_frame_and_append_witness :
    ((identify client0 store2 inp0 "newuser" []).2.1).eventsQueue
      = store2.eventsQueue
        ++ [identifiedEvent client0
              { sessionId := "s1", startTime := 0, lastActivityTime := 0 }
              inp0 "newuser" []]
    ∧ List.lookup ("previousUserId")
        (identifiedEvent client0
          { sessionId := "s1", startTime := 0, lastActivityTime := 0 }
          inp0 "newuser" []).properties
        = some (PropValue.pStr ("olduser"))
    ∧ ((identify client0 store2 inp0 "newuser" []).1).userId = some "newuser" :=
  have h := identify_frame_and_append client0 store2 inp0 "newuser" []
    { sessionId := "s1", startTime := 0, lastActivityTime := 0 }
    rfl rfl rfl (by decide) (by decide) rfl (by decide)
  ⟨h.1, h.2.2.2.1, h.2.2.2.2.2⟩

/-- Claim C8: after optOut every track call is a complete no-op (no state
    change, no queue growth, no effect); a subsequent optIn only clears the
    flag (no re-initialization happens or is needed), after which a track
    call counts the event locally and appends it to the durable queue
    again. -/
theorem optout_gates_and_optin_resumes (c : Client) (st : Store) (s : SessionData)
    (l0 : List AnalyticsEvent)
    (hInit : c.isInitialized = true)
    (hSess : c.mgrSession = some s)
    (hSA : c.sessionAnalytics = some l0)
    (hQ : c.hasQueue = true) :
    (∀ (inp : TrackInput) (name : String) (props : EventProperties),
      track (optOut c st).1 (optOut c st).2 inp name props
        = ((optOut c st).1, (optOut c st).2, []))
    ∧ (optOut c st).2.eventsQueue = st.eventsQueue
    ∧ (∀ (now2 : Int) (sid : String),
        optIn (optOut c st).1 (optOut c st).2 now2 sid
          = ({ c with isOptedOut := false, sessionAnalytics := some [] },
              { st with optOut := false }, []))
    ∧ (∀ (inp : TrackInput) (name : String) (props : EventProperties),
        isValidEventName name = true →
        inp.now - s.lastActivityTime < c.sessionTimeout →
        inp.sizeOf (trackedEvent c s inp name props) ≤ MAX_EVENT_SIZE →
        st.eventsQueue.length + 1 < c.maxQueueSize →
        track { c with isOptedOut := false, sessionAnalytics := some [] }
            { st with optOut := false } inp name props
          = ({ c with
                isOptedOut := false
                mgrSession := some ({ s with lastActivityTime := inp.now })
                sessionAnalytics := some [trackedEvent c s inp name props] },
              { st with
                  optOut := false
                  sessionData := some ({ s with lastActivityTime := inp.now })
                  eventsQueue := st.eventsQueue ++ [trackedEvent c s inp name props] },
              [])) := by
  refine ⟨?_, rfl, ?_, ?_⟩
  · intro inp name props
    simp [track, optOut, hInit]
  · intro now2 sid
    simp [optIn, optOut, hSess, hSA]
  · intro inp name props hName hFresh hSize hNoTrig
    have h := track_normal_queue
      { c with isOptedOut := false, sessionAnalytics := some [] }
      { st with optOut := false } inp name props s
      hInit rfl hName hSess hFresh hSize hQ hNoTrig
    simpa [trackedEvent, createEvent] using h

/-- Witness for C8: a concrete client opts out (track is then a no-op),
    opts back in, and a concrete track call appends its event to the
    durable queue again. -/
theorem optout_gates_and_optin_resumes_witness :
    (track (optOut client0 store2).1 (optOut client0 store2).2 inp0 "Tap" []
      = ((optOut client0 store2).1, (optOut client0 store2).2, []))
    ∧ (optIn (optOut client0 store2).1 (optOut client0 store2).2 7 "s3"
      = ({ client0 with isOptedOut := false, sessionAnalytics := some [] },
          { store2 with optOut := false }, []))
    ∧ (track { client0 with isOptedOut := false, sessionAnalytics := some [] }
          { store2 with optOut := false } inp0 "Tap" []
        = ({ client0 with
              isOptedOut := false
              mgrSession := some ({ sessionId := "s1", startTime := 0, lastActivityTime := 1000 } : SessionData)
              sessionAnalytics := some [trackedEvent client0 { sessionId := "s1", startTime := 0, lastActivityTime := 0 } inp0 "Tap" []] },
            { store2 with
                optOut := false
                sessionData := some ({ sessionId := "s1", startTime := 0, lastActivityTime := 1000 } : SessionData)
                eventsQueue := store2.eventsQueue ++ [trackedEvent client0 { sessionId := "s1", startTime := 0, lastActivityTime := 0 } inp0 "Tap" []] },
            [])) :=
  have h := optout_gates_and_optin_resumes client0 store2
    { sessionId := "s1", startTime := 0, lastActivityTime := 0 } []
    rfl rfl rfl rfl
  ⟨h.1 inp0 "Tap" [], h.2.2.1 7 "s3",
    h.2.2.2 inp0 "Tap" [] (by decide) (by decide) (by decide) (by decide)⟩

/-- The client state produced by init when the persisted opt-out flag is
    set: only the opted-out and initialized flags change. -/
def optedOutInitClient : Client :=
  { newClient with isOptedOut := true, isInitialized := true }

/-- The client state after an optIn that had to rebuild the session
    manager (fresh session, rebuilt local counter, still no queue). -/
def optInClient (sid : String) (now2 : Int) : Client :=
  { newClient with
      isInitialized := true
      mgrSession := some { sessionId := sid, startTime := now2, lastActivityTime := now2 }
      sessionAnalytics := some [] }

/-- The store after that optIn: flag cleared, fresh session persisted. -/
def optInStore (st : Store) (sid : String) (now2 : Int) : Store :=
  { st with
      optOut := false
      sessionData := some { sessionId := sid, startTime := now2, lastActivityTime := now2 } }

/-- Claim C10: when init runs with the persisted opt-out flag set it
    returns early with only the initialized (and opted-out) flags set and
    never constructs the transport or queue; a later optIn rebuilds the
    session manager and the local session counter but not the queue; a
    track call after that optIn counts the event locally while the durable
    queue stays untouched and nothing reaches the transport. -/
theorem init_optedout_never_builds_queue (st : Store) (apiKey freshAnonId : String)
    (inp : TrackInput) (hOpt : st.optOut = true) (hSD : st.sessionData = none) :
    init newClient st apiKey freshAnonId inp = (optedOutInitClient, st, [])
    ∧ optedOutInitClient.hasQueue = false
    ∧ (∀ (now2 : Int) (sid : String),
        optIn optedOutInitClient st now2 sid
          = (optInClient sid now2, optInStore st sid now2,
              [Effect.deferredTask ("Session Started")]))
    ∧ (∀ (sid : String) (now2 : Int),
        (optInClient sid now2).hasQueue = false
          ∧ (optInClient sid now2).isInitialized = true
          ∧ (optInClient sid now2).mgrSession.isSome = true)
    ∧ (∀ (now2 : Int) (sid : String) (inp2 : TrackInput) (name : String)
        (props : EventProperties),
        isValidEventName name = true →
        inp2.now - now2 < DEFAULT_sessionTimeout →
        inp2.sizeOf (trackedEvent (optInClient sid now2)
            { sessionId := sid, startTime := now2, lastActivityTime := now2 }
            inp2 name props) ≤ MAX_EVENT_SIZE →
        track (optInClient sid now2) (optInStore st sid now2) inp2 name props
          = ({ optInClient sid now2 with
                mgrSession := some ({ sessionId := sid, startTime := now2, lastActivityTime := inp2.now } : SessionData)
                sessionAnalytics :=
                  some [trackedEvent (optInClient sid now2)
                          { sessionId := sid, startTime := now2, lastActivityTime := now2 }
                          inp2 name props] },
              { optInStore st sid now2 with
                  sessionData := some ({ sessionId := sid, startTime := now2, lastActivityTime := inp2.now } : SessionData) },
              [])) := by
  refine ⟨?_, rfl, ?_, fun sid now2 => ⟨rfl, rfl, rfl⟩, ?_⟩
  · simp [init, hOpt, newClient, optedOutInitClient]
  · intro now2 sid
    simp [optIn, optedOutInitClient, newClient, initSession, hSD, startNewSession,
      applyCallbacks, applyCallback, optInClient, optInStore]
  · intro now2 sid inp2 name props hName hFresh hSize
    have h := track_normal_noqueue (optInClient sid now2) (optInStore st sid now2)
      inp2 name props { sessionId := sid, startTime := now2, lastActivityTime := now2 }
      rfl rfl hName rfl hFresh hSize rfl
    simpa [optInClient, optInStore, newClient] using h

/-- Witness for C10: a concrete opted-out store makes init skip the queue;
    optIn rebuilds the session; a concrete track call afterwards leaves the
    durable queue empty while counting locally. -/
theorem init_optedout_never_builds_queue_witness :
    init newClient
        { eventsQueue := [], anonymousId := none, userId := none,
          sessionData := none, optOut := true } "key" "anon" inp0
      = (optedOutInitClient,
          { eventsQueue := [], anonymousId := none, userId := none,
            sessionData := none, optOut := true }, [])
    ∧ (track (optInClient "s9" 0)
          (optInStore
            { eventsQueue := [], anonymousId := none, userId := none,
              sessionData := none, optOut := true } "s9" 0)
          inp0 "Tap" []).2.1.eventsQueue = []
    ∧ (track (optInClient "s9" 0)
          (optInStore
            { eventsQueue := [], anonymousId := none, userId := none,
              sessionData := none, optOut := true } "s9" 0)
          inp0 "Tap" []).1.sessionAnalytics
        = some [trackedEvent (optInClient "s9" 0)
                  { sessionId := "s9", startTime := 0, lastActivityTime := 0 }
                  inp0 "Tap" []] :=
  have h := init_optedout_never_builds_queue
    { eventsQueue := [], anonymousId := none, userId := none,
      sessionData := none, optOut := true } "key" "anon" inp0 rfl rfl
  have ht := h.2.2.2.2 0 "s9" inp0 "Tap" [] (by decide) (by decide) (by decide)
  ⟨h.1, by rw [ht]; rfl, by rw [ht]⟩

end Axyle
